import Mathlib

/-
  Shallow embedding of the Werewolf agent SDK (src/sdk/agent.py, src/sdk/game_types.py).

  Modelling conventions:
  * Python `int` is `Int`; digit tokens parse to non-negative values.
  * Fallible backend / generator calls return `Except String α`; the carried
    `String` models `str(exception)`.
  * Randomness (`random.choice`) is modelled by an explicit choice function
    `Choice : List Int → Int`; theorems that need it assume the choice picks a
    member of a non-empty list.
  * Every agent operation additionally returns the list of backend calls it
    performed (`BTrace`) and the list of prompts sent to the generator
    (`GTrace`), so "makes no backend/generator call" is a statement about the
    returned traces.
  * `str.isdigit` is modelled as "non-empty and all ASCII digits", and
    `str.lower` as ASCII lowering, the fragment exercised by the code.
  * Python dicts with a fixed key set (TypedDicts) are structures; optional
    keys are `Option` fields with `none` for an absent key.
-/

namespace WerewolfSDK

/-- `Role` enumeration from game_types.py. -/
inductive Role where
  | villager
  | werewolf
  | witch
  | seer
  | hunter
deriving DecidableEq, Repr

/-- `Role.value`: the string payload of each enum member. -/
def Role.value : Role → String
  | .villager => "villager"
  | .werewolf => "werewolf"
  | .witch => "witch"
  | .seer => "seer"
  | .hunter => "hunter"

/-- `SpeechRecord` TypedDict (total): all keys present. -/
structure SpeechRecord where
  player_id : Int
  content : String
  round : Int
  phase : String
deriving DecidableEq, Repr

/-- `DeathInfo` TypedDict (total). -/
structure DeathInfo where
  player_id : Int
  round : Int
  cause : String
deriving DecidableEq, Repr

/-- `GameState` TypedDict (total=False): every key optional; `none` means the
key is absent from the dict. The empty dict `\x7b\x7d` is `{}` (all `none`). -/
structure GameState where
  phase : Option String := none
  round : Option Int := none
  alive_players : Option (List Int) := none
  death_info : Option (List DeathInfo) := none
deriving DecidableEq, Repr

/-- `KnowledgeBase` TypedDict. The constructor in `Agent.__init__` populates
`game_phase`, `current_round`, `history_speeches`, `vote_history` and
`death_info`; the key `alive_players` is absent until `get_current_state`
first succeeds, hence it is an `Option` with `none` for "key absent".
`vote_history` entries are opaque to the agent code and modelled as strings. -/
structure KnowledgeBase where
  game_phase : Option String := none
  current_round : Int := 0
  history_speeches : List SpeechRecord := []
  vote_history : List String := []
  death_info : List DeathInfo := []
  alive_players : Option (List Int) := none
deriving DecidableEq, Repr

/-- `SkillResult` TypedDict (total=False). `success` and `message` are set by
every path of the skill handlers, so they are plain fields. -/
structure SkillResult where
  success : Bool := false
  message : String := ""
  target_id : Option Int := none
  check_result : Option String := none
deriving DecidableEq, Repr

/-- `SkillParams` TypedDict (total=False). -/
structure SkillParams where
  action : Option String := none
  target_id : Option Int := none
deriving DecidableEq, Repr

/-- `ActionResult` TypedDict (total=False); `action_type` and `success` are set
by `act` on every path. -/
structure ActionResult where
  action_type : String := ""
  success : Bool := false
  message : Option String := none
  content : Option String := none
  vote_target : Option Int := none
deriving DecidableEq, Repr

/-- One recorded call to the `BackendInterface`, with its arguments. The witch
mutations can receive Python `None` as target, hence `Option Int` there. -/
inductive BCall where
  | getSpeechHistory (player_id : Int)
  | getGameState (player_id : Int)
  | submitSpeech (player_id : Int) (content : String)
  | submitVote (player_id : Int) (target_id : Int)
  | updateAgentAction (player_id : Int) (result : ActionResult)
  | werewolfKill (player_id : Int) (target_id : Int)
  | witchSave (player_id : Int) (target_id : Option Int)
  | witchPoison (player_id : Int) (target_id : Option Int)
  | seerCheck (player_id : Int) (target_id : Int)
  | hunterShoot (player_id : Int) (target_id : Int)
deriving DecidableEq, Repr

/-- The behaviour of a `BackendInterface` implementation: each method maps its
arguments to a result or a raised exception (`Except.error message`). -/
structure Backend where
  get_speech_history : Int → Except String (List SpeechRecord)
  get_game_state : Int → Except String GameState
  submit_speech : Int → String → Except String Unit
  submit_vote : Int → Int → Except String Unit
  update_agent_action : Int → ActionResult → Except String Unit
  werewolf_kill : Int → Int → Except String Unit
  witch_save : Int → Option Int → Except String Unit
  witch_poison : Int → Option Int → Except String Unit
  seer_check : Int → Int → Except String String
  hunter_shoot : Int → Int → Except String Unit

/-- An `AIClient.generate` implementation, or a raised exception. -/
abbrev Generator := String → Except String String

/-- Model of `random.choice` over integer lists. -/
abbrev Choice := List Int → Int

/-- Trace of backend calls made during one operation, in order. -/
abbrev BTrace := List BCall

/-- Trace of prompts sent to the configured generator during one operation. -/
abbrev GTrace := List String

/-- Agent state (`Agent.__init__`). -/
structure Agent where
  player_id : Int
  role : Role
  api_client : Option Generator := none
  is_alive : Bool := true
  vote_target : Option Int := none
  skill_used : Bool := false
  knowledge_base : KnowledgeBase := {}

/-- The context dict passed alongside prompts; each field is `some` exactly
when the caller put that key into the dict. -/
structure Context where
  player_id : Option Int := none
  role : Option String := none
  game_phase : Option (Option String) := none
  speech_type : Option String := none
  history : Option (List SpeechRecord) := none
  alive_players : Option (List Int) := none
  death_info : Option (List DeathInfo) := none
deriving Repr

/-! ## Shared string primitives -/

/-- Accumulating worker for `pySplit`: `cur` holds the reversed characters of
the token being read. -/
def pySplitAux : List Char → List Char → List String
  | cur, [] => if cur.isEmpty then [] else [String.mk cur.reverse]
  | cur, c :: rest =>
    if c.isWhitespace then
      if cur.isEmpty then pySplitAux [] rest
      else String.mk cur.reverse :: pySplitAux [] rest
    else pySplitAux (c :: cur) rest

/-- Python `str.split()` with no argument: split on whitespace runs, dropping
empty pieces; written over the character list so that it evaluates inside the
kernel. -/
def pySplit (s : String) : List String :=
  pySplitAux [] s.data

/-- Python `str.isdigit` restricted to ASCII: non-empty and all decimal
digits; written over the character list so that it evaluates inside the
kernel. -/
def pyIsDigit (s : String) : Bool :=
  !s.data.isEmpty && s.data.all Char.isDigit

/-- Python `str.lower` (ASCII fragment), written over the character list so
that it evaluates inside the kernel. -/
def pyLower (s : String) : String := String.mk (s.data.map Char.toLower)

/-- The whitespace-delimited all-digit tokens of a reply, in order
(`[s for s in reply.split() if s.isdigit()]`). -/
def digitTokens (s : String) : List String :=
  (pySplit s).filter pyIsDigit

/-- `int` applied to an all-digit token: its decimal value, written over the
character list so that it evaluates inside the kernel. -/
def tokenInt (s : String) : Int :=
  Int.ofNat (s.data.foldl (fun acc c => acc * 10 + (c.toNat - 48)) 0)

/-- `numbers[0] if numbers else d` over the digit tokens of `s`. -/
def first_number (s : String) (d : Int) : Int :=
  match digitTokens s with
  | [] => d
  | t :: _ => tokenInt t

/-- Auxiliary substring scan: does `needle` occur in the char list? -/
def subAux (needle : List Char) : List Char → Bool
  | [] => needle.isEmpty
  | c :: t => needle.isPrefixOf (c :: t) || subAux needle t

/-- Python `needle in hay` on strings (substring containment). -/
def containsSub (hay needle : String) : Bool :=
  subAux needle.data hay.data

/-- Python `lst[-n:]`: the last `n` elements. -/
def lastN (n : Nat) (l : List α) : List α :=
  l.drop (l.length - n)

/-- Python `str(...)` of a list of ints, e.g. `[1, 2, 3]`. -/
def pyIntList (l : List Int) : String :=
  "[" ++ String.intercalate ", " (l.map toString) ++ "]"

/-- Python `str(...)` of an `int | None` value. -/
def pyOptInt : Option Int → String
  | none => "None"
  | some n => toString n

/-- Python `str(...)` of a `str | None` value (f-string rendering). -/
def pyOptStr : Option String → String
  | none => "None"
  | some s => s

/-- `list(range(1, 10))`: the fixed default roster. -/
def defaultRoster : List Int := [1, 2, 3, 4, 5, 6, 7, 8, 9]

/-! ## Parsing helpers (`_parse_*` methods) -/

/-- `Agent._parse_number_from_response`: first all-digit token, else 0. -/
def parse_number_from_response (response : String) : Int :=
  first_number response 0

/-- `Agent._parse_witch_decision`. -/
def parse_witch_decision (response : String) : String × Int :=
  let response_lower := pyLower response
  if containsSub response_lower "save" then
    ("save", first_number response 0)
  else if containsSub response_lower "poison" then
    ("poison", first_number response 0)
  else
    ("abstain", 0)

/-- `Agent._parse_vote_decision`. The default roster is used only when the
`alive_players` key is absent from the knowledge base (`dict.get` default). -/
def parse_vote_decision (a : Agent) (ch : Choice) (ai_response : String) : Int :=
  match digitTokens ai_response with
  | t :: _ => tokenInt t
  | [] =>
    let alive_players := a.knowledge_base.alive_players.getD defaultRoster
    let other_players := alive_players.filter (fun p => p != a.player_id)
    if other_players.isEmpty then -1 else ch other_players

/-! ## Prompt construction -/

/-- The `role_descriptions` mapping in `_construct_speech_prompt`, with the
dict-get default of the raw role tag for unknown roles. -/
def role_description (r : String) : String :=
  if r = "villager" then "You are a villager, you need to find the werewolves"
  else if r = "werewolf" then
    "You are a werewolf, disguise as a good player and protect your teammates"
  else if r = "witch" then
    "You are a witch, guide the good faction with your speech"
  else if r = "seer" then "You are a seer, carefully reveal check information"
  else if r = "hunter" then
    "You are a hunter, speak cautiously to avoid being pushed out"
  else r

/-- `Agent._format_speech_history`. -/
def format_speech_history (history : List SpeechRecord) : String :=
  String.intercalate "\n"
    (history.map (fun s => "Player " ++ toString s.player_id ++ ": " ++ s.content))

/-- `Agent._construct_speech_prompt`. The callers always populate the context
keys this f-string reads, so the `getD` defaults are never exercised. -/
def construct_speech_prompt (a : Agent) (context : Context) : String :=
  let role_desc := role_description (context.role.getD "")
  "\nYou are playing a Werewolf game.\nYour role: " ++ role_desc ++
  "\nPlayer ID: " ++ toString a.player_id ++
  "\nGame phase: " ++ pyOptStr (context.game_phase.getD none) ++
  "\nAlive players: " ++ pyIntList (context.alive_players.getD []) ++
  "\nSpeech type: " ++ context.speech_type.getD "" ++
  "\n\nRecent speech history:\n" ++ format_speech_history (context.history.getD []) ++
  "\n\nPlease make a speech based on the above information. Requirements:\n" ++
  "1. Stay consistent with your role identity\n" ++
  "2. Analyze the situation and provide reasonable deductions\n" ++
  "3. Speak naturally like a human player\n" ++
  "4. Keep the length between 50-150 words\n\nYour speech:\n"

/-- `Agent._construct_vote_prompt`. -/
def construct_vote_prompt (a : Agent) (context : Context) : String :=
  "\nAs a " ++ context.role.getD "" ++ " (Player " ++ toString a.player_id ++
  "), decide who to vote for based on the current situation.\nAlive players: " ++
  pyIntList (context.alive_players.getD []) ++
  "\nGame phase: " ++ pyOptStr (context.game_phase.getD none) ++
  "\n\nAnalyze and return only the player ID number you want to vote for.\nVote target:\n"

/-- The werewolf skill prompt in `_use_werewolf_skill`. -/
def werewolf_prompt : String :=
  "As a werewolf, choose a player to kill tonight. Return only the player ID number:"

/-- The witch skill prompt in `_use_witch_skill`. -/
def witch_prompt : String :=
  "As a witch, decide whether to use antidote or poison. Return \x27save X\x27 or \x27poison X\x27 or \x27abstain\x27:"

/-- The seer skill prompt in `_use_seer_skill`. -/
def seer_prompt : String :=
  "As a seer, choose a player to check. Return only the player ID number:"

/-- The hunter skill prompt in `_use_hunter_skill`. -/
def hunter_prompt : String :=
  "As a hunter, choose a player to shoot. Return only the player ID number (or 0 to not shoot):"

/-! ## Generator interaction (`interact_with_ai`, `_simulate_ai_response`,
`_construct_full_prompt`) -/

/-- JSON string literal rendering (field-level escaping of exotic characters is
not modelled; no claim inspects serialized prompts). -/
def jstr (s : String) : String := "\x22" ++ s ++ "\x22"

/-- JSON rendering of `str | None`. -/
def joptStr : Option String → String
  | none => "null"
  | some s => jstr s

/-- JSON rendering of a speech record. -/
def speechJson (r : SpeechRecord) : String :=
  "\x7b\x22player_id\x22: " ++ toString r.player_id ++
  ", \x22content\x22: " ++ jstr r.content ++
  ", \x22round\x22: " ++ toString r.round ++
  ", \x22phase\x22: " ++ jstr r.phase ++ "\x7d"

/-- JSON rendering of a death record. -/
def deathJson (r : DeathInfo) : String :=
  "\x7b\x22player_id\x22: " ++ toString r.player_id ++
  ", \x22round\x22: " ++ toString r.round ++
  ", \x22cause\x22: " ++ jstr r.cause ++ "\x7d"

/-- JSON rendering of a list given a renderer for its elements. -/
def jlist (f : α → String) (l : List α) : String :=
  "[" ++ String.intercalate ", " (l.map f) ++ "]"

/-- JSON rendering of `dict(self.knowledge_base)`; the `alive_players` key is
present only once a state fetch has succeeded. -/
def kbJson (kb : KnowledgeBase) : String :=
  "\x7b\x22game_phase\x22: " ++ joptStr kb.game_phase ++
  ", \x22current_round\x22: " ++ toString kb.current_round ++
  ", \x22history_speeches\x22: " ++ jlist speechJson kb.history_speeches ++
  ", \x22vote_history\x22: " ++ jlist jstr kb.vote_history ++
  ", \x22death_info\x22: " ++ jlist deathJson kb.death_info ++
  (match kb.alive_players with
   | none => ""
   | some l => ", \x22alive_players\x22: " ++ jlist toString l) ++ "\x7d"

/-- `json.dumps(full_context)` in `_construct_full_prompt`: the base keys
role / player_id / game_state, overridden and extended by the call-specific
context keys (`**context` wins on the shared keys). -/
def contextJson (a : Agent) (context : Context) : String :=
  "\x7b\x22role\x22: " ++ jstr (context.role.getD a.role.value) ++
  ", \x22player_id\x22: " ++ toString (context.player_id.getD a.player_id) ++
  ", \x22game_state\x22: " ++ kbJson a.knowledge_base ++
  (match context.game_phase with
   | none => ""
   | some p => ", \x22game_phase\x22: " ++ joptStr p) ++
  (match context.speech_type with
   | none => ""
   | some t => ", \x22speech_type\x22: " ++ jstr t) ++
  (match context.history with
   | none => ""
   | some h => ", \x22history\x22: " ++ jlist speechJson h) ++
  (match context.alive_players with
   | none => ""
   | some l => ", \x22alive_players\x22: " ++ jlist toString l) ++
  (match context.death_info with
   | none => ""
   | some d => ", \x22death_info\x22: " ++ jlist deathJson d) ++ "\x7d"

/-- `Agent._construct_full_prompt`. -/
def construct_full_prompt (a : Agent) (prompt : String) (context : Context) : String :=
  "Context: " ++ contextJson a context ++ "\n\nQuestion: " ++ prompt

/-- `Agent._simulate_ai_response`. Note the vote reply degrades to the constant
`"1"` when the context roster minus self is empty. -/
def simulate_ai_response (a : Agent) (ch : Choice) (prompt : String)
    (context : Context) : String :=
  let alive_players := context.alive_players.getD defaultRoster
  let other_players := alive_players.filter (fun p => p != a.player_id)
  let speechResponse :=
    "I am player " ++ toString a.player_id ++ ", as a " ++ a.role.value ++
    ", I think we need to carefully analyze the current situation."
  let voteResponse := toString (if other_players.isEmpty then 1 else ch other_players)
  let skillResponse := "Based on the current situation, I choose to act."
  let prompt_lower := pyLower prompt
  if containsSub prompt_lower "speech" || containsSub prompt_lower "speak" then
    speechResponse
  else if containsSub prompt_lower "vote" then
    voteResponse
  else
    skillResponse

/-- `Agent.interact_with_ai`: ask the configured generator, falling back to the
simulated response when it is absent or raises. The second component records
the prompts actually sent to the generator. -/
def interact_with_ai (a : Agent) (ch : Choice) (prompt : String)
    (context : Context) : String × GTrace :=
  match a.api_client with
  | none => (simulate_ai_response a ch prompt context, [])
  | some gen =>
    let full_prompt := construct_full_prompt a prompt context
    match gen full_prompt with
    | .ok response => (response, [full_prompt])
    | .error _ => (simulate_ai_response a ch prompt context, [full_prompt])

/-- The premise of the Generator-with-fallback contract: no generator is
configured, or the configured generator raises on every call. -/
def GenUnavailable (a : Agent) : Prop :=
  a.api_client = none ∨
    ∃ gen, a.api_client = some gen ∧ ∀ q, ∃ e, gen q = Except.error e

/-- The same agent with its generator client removed: the reference point for
"behaves as if no Generator is configured". -/
def noGen (a : Agent) : Agent := { a with api_client := none }

/-! ## State refresh -/

/-- `Agent.get_current_state`: fetch, cache on success (the four state fields
as a group), return `\x7b\x7d` and leave the knowledge base alone on failure. -/
def get_current_state (a : Agent) (b : Backend) : GameState × Agent × BTrace :=
  match b.get_game_state a.player_id with
  | .ok state =>
    (state,
     { a with knowledge_base :=
        { a.knowledge_base with
            game_phase := state.phase
            current_round := state.round.getD 0
            alive_players := some (state.alive_players.getD [])
            death_info := state.death_info.getD [] } },
     [BCall.getGameState a.player_id])
  | .error _ => ({}, a, [BCall.getGameState a.player_id])

/-- `Agent.get_history_speeches`: fetch and cache, returning `[]` and leaving
the cache alone on failure. -/
def get_history_speeches (a : Agent) (b : Backend) :
    List SpeechRecord × Agent × BTrace :=
  match b.get_speech_history a.player_id with
  | .ok history =>
    (history,
     { a with knowledge_base := { a.knowledge_base with history_speeches := history } },
     [BCall.getSpeechHistory a.player_id])
  | .error _ => ([], a, [BCall.getSpeechHistory a.player_id])

/-! ## Action entry points -/

/-- `Agent.speak`. The submission outcome does not affect the returned value
(the except branch returns the same speech content), so it is not matched on;
the attempted call is recorded in the trace. -/
def speak (a : Agent) (b : Backend) (ch : Choice) (speech_type : String) :
    String × Agent × BTrace × GTrace :=
  if ¬ a.is_alive then ("", a, [], [])
  else
    let s1 := get_current_state a b
    let a1 := s1.2.1
    let s2 := get_history_speeches a1 b
    let history := s2.1
    let a2 := s2.2.1
    let context : Context :=
      { player_id := some a2.player_id
        role := some a2.role.value
        game_phase := some a2.knowledge_base.game_phase
        speech_type := some speech_type
        history := some (lastN 10 history)
        alive_players := some (a2.knowledge_base.alive_players.getD []) }
    let prompt := construct_speech_prompt a2 context
    let r := interact_with_ai a2 ch prompt context
    let speech_content := r.1
    let _submit := b.submit_speech a2.player_id speech_content
    (speech_content, a2,
     s1.2.2 ++ s2.2.2 ++ [BCall.submitSpeech a2.player_id speech_content], r.2)

/-- `Agent.vote`. A supplied target is used verbatim; otherwise the decision is
AI-derived and parsed. The submission outcome does not affect the returned
target (the except branch returns the same value). -/
def vote (a : Agent) (b : Backend) (ch : Choice) (target_id : Option Int) :
    Int × Agent × BTrace × GTrace :=
  if ¬ a.is_alive then (-1, a, [], [])
  else
    let d :=
      match target_id with
      | some t => (t, ([] : GTrace))
      | none =>
        let context : Context :=
          { player_id := some a.player_id
            role := some a.role.value
            game_phase := some a.knowledge_base.game_phase
            alive_players := some (a.knowledge_base.alive_players.getD [])
            history := some (lastN 5 a.knowledge_base.history_speeches) }
        let prompt := construct_vote_prompt a context
        let r := interact_with_ai a ch prompt context
        (parse_vote_decision a ch r.1, r.2)
    let vt := d.1
    let a1 := { a with vote_target := some vt }
    let _submit := b.submit_vote a.player_id vt
    (vt, a1, [BCall.submitVote a.player_id vt], d.2)

/-- `Agent._get_skill_context`. -/
def get_skill_context (a : Agent) : Context :=
  { player_id := some a.player_id
    role := some a.role.value
    alive_players := some (a.knowledge_base.alive_players.getD [])
    history := some (lastN 5 a.knowledge_base.history_speeches)
    death_info := some a.knowledge_base.death_info }

/-- `Agent._use_werewolf_skill`. -/
def use_werewolf_skill (a : Agent) (b : Backend) (ch : Choice)
    (skill_params : SkillParams) : SkillResult × BTrace × GTrace :=
  let d :=
    match skill_params.target_id with
    | some t => (t, ([] : GTrace))
    | none =>
      let context := get_skill_context a
      let r := interact_with_ai a ch werewolf_prompt context
      (parse_number_from_response r.1, r.2)
  let target_id := d.1
  match b.werewolf_kill a.player_id target_id with
  | .ok _ =>
    ({ success := true
       message := "Werewolf chose to kill player " ++ toString target_id
       target_id := some target_id },
     [BCall.werewolfKill a.player_id target_id], d.2)
  | .error e =>
    ({ success := false, message := "Werewolf kill failed: " ++ e },
     [BCall.werewolfKill a.player_id target_id], d.2)

/-- `Agent._use_witch_skill`. When the action is supplied the target may be the
absent key, i.e. Python `None`, which is forwarded to the backend as-is. -/
def use_witch_skill (a : Agent) (b : Backend) (ch : Choice)
    (skill_params : SkillParams) : SkillResult × BTrace × GTrace :=
  let d :=
    match skill_params.action with
    | some ac => (ac, skill_params.target_id, ([] : GTrace))
    | none =>
      let context := get_skill_context a
      let r := interact_with_ai a ch witch_prompt context
      let p := parse_witch_decision r.1
      (p.1, some p.2, r.2)
  let action := d.1
  let target_id := d.2.1
  if action = "save" then
    match b.witch_save a.player_id target_id with
    | .ok _ =>
      ({ success := true
         message := "Witch used antidote to save player " ++ pyOptInt target_id },
       [BCall.witchSave a.player_id target_id], d.2.2)
    | .error e =>
      ({ success := false, message := "Witch skill failed: " ++ e },
       [BCall.witchSave a.player_id target_id], d.2.2)
  else if action = "poison" then
    match b.witch_poison a.player_id target_id with
    | .ok _ =>
      ({ success := true
         message := "Witch used poison on player " ++ pyOptInt target_id },
       [BCall.witchPoison a.player_id target_id], d.2.2)
    | .error e =>
      ({ success := false, message := "Witch skill failed: " ++ e },
       [BCall.witchPoison a.player_id target_id], d.2.2)
  else
    ({ success := true, message := "Witch chose not to use skill" }, [], d.2.2)

/-- `Agent._use_seer_skill`. -/
def use_seer_skill (a : Agent) (b : Backend) (ch : Choice)
    (skill_params : SkillParams) : SkillResult × BTrace × GTrace :=
  let d :=
    match skill_params.target_id with
    | some t => (t, ([] : GTrace))
    | none =>
      let context := get_skill_context a
      let r := interact_with_ai a ch seer_prompt context
      (parse_number_from_response r.1, r.2)
  let target_id := d.1
  match b.seer_check a.player_id target_id with
  | .ok check_result =>
    ({ success := true
       message := "Seer checked player " ++ toString target_id ++
         ", result is " ++ check_result
       check_result := some check_result },
     [BCall.seerCheck a.player_id target_id], d.2)
  | .error e =>
    ({ success := false, message := "Seer check failed: " ++ e },
     [BCall.seerCheck a.player_id target_id], d.2)

/-- `Agent._use_hunter_skill`: a resolved target of `0` short-circuits to a
success result before any backend call. -/
def use_hunter_skill (a : Agent) (b : Backend) (ch : Choice)
    (skill_params : SkillParams) : SkillResult × BTrace × GTrace :=
  let d :=
    match skill_params.target_id with
    | some t => (t, ([] : GTrace))
    | none =>
      let context := get_skill_context a
      let r := interact_with_ai a ch hunter_prompt context
      (parse_number_from_response r.1, r.2)
  let target_id := d.1
  if target_id = 0 then
    ({ success := true, message := "Hunter chose not to shoot" }, [], d.2)
  else
    match b.hunter_shoot a.player_id target_id with
    | .ok _ =>
      ({ success := true
         message := "Hunter shot player " ++ toString target_id
         target_id := some target_id },
       [BCall.hunterShoot a.player_id target_id], d.2)
    | .error e =>
      ({ success := false, message := "Hunter shoot failed: " ++ e },
       [BCall.hunterShoot a.player_id target_id], d.2)

/-- `Agent.use_skill`: fails closed when dead or the one-shot latch is set;
dispatches by role (villager keeps the unset default result); sets the latch
on handler success. -/
def use_skill (a : Agent) (b : Backend) (ch : Choice)
    (skill_params : Option SkillParams) : SkillResult × Agent × BTrace × GTrace :=
  if ¬ a.is_alive ∨ a.skill_used then
    ({ success := false, message := "Cannot use skill" }, a, [], [])
  else
    let sp := skill_params.getD {}
    let d :=
      match a.role with
      | .werewolf => use_werewolf_skill a b ch sp
      | .witch => use_witch_skill a b ch sp
      | .seer => use_seer_skill a b ch sp
      | .hunter => use_hunter_skill a b ch sp
      | .villager => ({ success := false, message := "" }, [], [])
    let skill_result := d.1
    let a1 := if skill_result.success then { a with skill_used := true } else a
    (skill_result, a1, d.2.1, d.2.2)

/-- The body of `Agent.act` before the `update_agent_action` call: dispatch on
the action tag and package the outcome. In this embedding the three entry
points are total, so no exception can arise before the update call. -/
def act_dispatch (a : Agent) (b : Backend) (ch : Choice) (action_type : String)
    (speech_type : Option String) (target_id : Option Int)
    (skill_params : Option SkillParams) : ActionResult × Agent × BTrace × GTrace :=
  let result0 : ActionResult := { action_type := action_type, success := false }
  if action_type = "speak" then
    let r := speak a b ch (speech_type.getD "normal")
    ({ result0 with success := true, content := some r.1 }, r.2.1, r.2.2.1, r.2.2.2)
  else if action_type = "vote" then
    let r := vote a b ch target_id
    ({ result0 with success := true, vote_target := some r.1 }, r.2.1, r.2.2.1, r.2.2.2)
  else if action_type = "use_skill" then
    let r := use_skill a b ch (some (skill_params.getD {}))
    ({ result0 with success := r.1.success, message := some r.1.message },
     r.2.1, r.2.2.1, r.2.2.2)
  else (result0, a, [], [])

/-- `Agent.act`: dispatch, then report the result through
`update_agent_action`; an exception raised by the update call is caught and
recorded in the message field of the already-built result (the success flag is
not reset). -/
def act (a : Agent) (b : Backend) (ch : Choice) (action_type : String)
    (speech_type : Option String) (target_id : Option Int)
    (skill_params : Option SkillParams) : ActionResult × Agent × BTrace × GTrace :=
  let d := act_dispatch a b ch action_type speech_type target_id skill_params
  let result := d.1
  let a1 := d.2.1
  let trace := d.2.2.1 ++ [BCall.updateAgentAction a1.player_id result]
  match b.update_agent_action a1.player_id result with
  | .ok _ => (result, a1, trace, d.2.2.2)
  | .error e =>
    ({ result with message := some ("Action failed: " ++ e) }, a1, trace, d.2.2.2)

/-- `Agent.update_status`: the status dict is an association list; only the
`is_alive` and `skill_used` keys are consulted. Status values are modelled as
booleans (the two fields they are assigned to are boolean flags). -/
def update_status (a : Agent) (new_status : List (String × Bool)) : Agent :=
  let a1 :=
    match new_status.lookup "is_alive" with
    | some v => { a with is_alive := v }
    | none => a
  match new_status.lookup "skill_used" with
  | some v => { a1 with skill_used := v }
  | none => a1

/-! ## Concrete fixtures for witnesses and counterexamples -/

/-- A concrete choice function: pick the head of the candidate list. -/
def chooseHead : Choice := fun l => l.headD 0

/-- A backend on which every call succeeds. -/
def okBackend : Backend where
  get_speech_history := fun _ => .ok []
  get_game_state := fun _ =>
    .ok { phase := some "night", round := some 2
          alive_players := some [1, 2, 3, 4, 5], death_info := some [] }
  submit_speech := fun _ _ => .ok ()
  submit_vote := fun _ _ => .ok ()
  update_agent_action := fun _ _ => .ok ()
  werewolf_kill := fun _ _ => .ok ()
  witch_save := fun _ _ => .ok ()
  witch_poison := fun _ _ => .ok ()
  seer_check := fun _ _ => .ok "werewolf"
  hunter_shoot := fun _ _ => .ok ()

/-- A backend whose `update_agent_action` raises and everything else succeeds. -/
def boomBackend : Backend :=
  { okBackend with update_agent_action := fun _ _ => .error "boom" }

/-- A generator that raises on every call. -/
def failGen : Generator := fun _ => .error "down"

/-- A dead agent. -/
def deadAgent : Agent :=
  { player_id := 3, role := .werewolf, is_alive := false }

/-- An alive hunter that has not used its skill. -/
def hunterAgent : Agent := { player_id := 7, role := .hunter }

/-- An alive seer that has not used its skill. -/
def seerAgent : Agent := { player_id := 5, role := .seer }

/-- A seer whose one-shot skill latch is already set. -/
def latchedAgent : Agent := { player_id := 5, role := .seer, skill_used := true }

/-- An alive villager with no cached roster (fresh knowledge base). -/
def villagerAgent : Agent := { player_id := 5, role := .villager }

/-- An agent whose cached alive roster is present but empty. -/
def emptyRosterAgent : Agent :=
  { player_id := 5, role := .villager, knowledge_base := { alive_players := some [] } }

/-- An agent that is the only alive player and whose generator always raises. -/
def lonelyAgent : Agent :=
  { player_id := 1, role := .villager, api_client := some failGen
    knowledge_base := { alive_players := some [1] } }

/-- A context whose alive roster holds only `lonelyAgent` itself. -/
def lonelyContext : Context := { alive_players := some [1] }

/-- A game state with only the `round` key present. -/
def partialState : GameState := { round := some 7 }

/-- A backend whose state fetch returns `partialState`. -/
def partialBackend : Backend :=
  { okBackend with get_game_state := fun _ => .ok partialState }

/-- A witch with a populated knowledge base. -/
def witchAgent : Agent :=
  { player_id := 2, role := .witch
    knowledge_base :=
      { game_phase := some "day"
        history_speeches := [{ player_id := 1, content := "hi", round := 1, phase := "day" }] } }

/-- One gameplay step of the public Agent surface (no administrative
`update_status` overwrite): exactly the calls a driver can make during normal
play. -/
inductive NormalOp where
  | speakOp (b : Backend) (ch : Choice) (speech_type : String)
  | voteOp (b : Backend) (ch : Choice) (target_id : Option Int)
  | useSkillOp (b : Backend) (ch : Choice) (skill_params : Option SkillParams)
  | actOp (b : Backend) (ch : Choice) (action_type : String)
      (speech_type : Option String) (target_id : Option Int)
      (skill_params : Option SkillParams)
  | refreshStateOp (b : Backend)
  | refreshHistoryOp (b : Backend)

/-- The agent state after one gameplay step. -/
def applyOp (a : Agent) : NormalOp → Agent
  | .speakOp b ch st => (speak a b ch st).2.1
  | .voteOp b ch tid => (vote a b ch tid).2.1
  | .useSkillOp b ch sp => (use_skill a b ch sp).2.1
  | .actOp b ch ty sty tid sp => (act a b ch ty sty tid sp).2.1
  | .refreshStateOp b => (get_current_state a b).2.1
  | .refreshHistoryOp b => (get_history_speeches a b).2.1

/-- The agent state after a sequence of gameplay steps. -/
def runOps (a : Agent) : List NormalOp → Agent
  | [] => a
  | op :: rest => runOps (applyOp a op) rest

/-! ## Helper lemmas -/

theorem chooseHead_mem (l : List Int) (h : l ≠ []) : chooseHead l ∈ l := by
  cases l with
  | nil => exact absurd rfl h
  | cons x t => simp [chooseHead]

theorem get_current_state_skill_used (a : Agent) (b : Backend) :
    ((get_current_state a b).2.1).skill_used = a.skill_used := by
  unfold get_current_state
  cases b.get_game_state a.player_id <;> rfl

theorem get_history_speeches_skill_used (a : Agent) (b : Backend) :
    ((get_history_speeches a b).2.1).skill_used = a.skill_used := by
  unfold get_history_speeches
  cases b.get_speech_history a.player_id <;> rfl

theorem speak_skill_used (a : Agent) (b : Backend) (ch : Choice)
    (speech_type : String) :
    ((speak a b ch speech_type).2.1).skill_used = a.skill_used := by
  by_cases h : a.is_alive = true <;>
    simp [speak, h, get_current_state_skill_used, get_history_speeches_skill_used]

theorem vote_skill_used (a : Agent) (b : Backend) (ch : Choice)
    (target_id : Option Int) :
    ((vote a b ch target_id).2.1).skill_used = a.skill_used := by
  by_cases h : a.is_alive = true <;> simp [vote, h]

theorem use_skill_latched_fails (a : Agent) (b : Backend) (ch : Choice)
    (skill_params : Option SkillParams) (h : a.skill_used = true) :
    (use_skill a b ch skill_params).1.success = false := by
  simp [use_skill, h]

theorem use_skill_latch_mono (a : Agent) (b : Backend) (ch : Choice)
    (skill_params : Option SkillParams) (h : a.skill_used = true) :
    ((use_skill a b ch skill_params).2.1).skill_used = true := by
  simp [use_skill, h]

theorem use_skill_success_latch (a : Agent) (b : Backend) (ch : Choice)
    (skill_params : Option SkillParams)
    (h : (use_skill a b ch skill_params).1.success = true) :
    ((use_skill a b ch skill_params).2.1).skill_used = true := by
  cases ha : a.is_alive <;> cases hs : a.skill_used <;> simp_all [use_skill]

theorem act_agent_eq (a : Agent) (b : Backend) (ch : Choice) (action_type : String)
    (speech_type : Option String) (target_id : Option Int)
    (skill_params : Option SkillParams) :
    (act a b ch action_type speech_type target_id skill_params).2.1 =
      (act_dispatch a b ch action_type speech_type target_id skill_params).2.1 := by
  simp only [act]
  cases hu : b.update_agent_action
      ((act_dispatch a b ch action_type speech_type target_id skill_params).2.1).player_id
      (act_dispatch a b ch action_type speech_type target_id skill_params).1 <;>
    simp [hu]

theorem act_latch_mono (a : Agent) (b : Backend) (ch : Choice) (action_type : String)
    (speech_type : Option String) (target_id : Option Int)
    (skill_params : Option SkillParams) (h : a.skill_used = true) :
    ((act a b ch action_type speech_type target_id skill_params).2.1).skill_used = true := by
  rw [act_agent_eq]
  unfold act_dispatch
  by_cases h1 : action_type = "speak"
  · simp [h1, speak_skill_used, h]
  · by_cases h2 : action_type = "vote"
    · simp [h1, h2, vote_skill_used, h]
    · by_cases h3 : action_type = "use_skill"
      · simpa [h1, h2, h3] using use_skill_latch_mono a b ch (some (skill_params.getD {})) h
      · simp [h1, h2, h3, h]

theorem runOps_latch_mono (ops : List NormalOp) (a : Agent)
    (h : a.skill_used = true) : (runOps a ops).skill_used = true := by
  induction ops generalizing a with
  | nil => exact h
  | cons op rest ih =>
    refine ih _ ?_
    cases op with
    | speakOp b ch st => simpa [applyOp, speak_skill_used] using h
    | voteOp b ch tid => simpa [applyOp, vote_skill_used] using h
    | useSkillOp b ch sp => simpa [applyOp] using use_skill_latch_mono a b ch sp h
    | actOp b ch ty sty tid sp =>
      simpa [applyOp] using act_latch_mono a b ch ty sty tid sp h
    | refreshStateOp b => simpa [applyOp, get_current_state_skill_used] using h
    | refreshHistoryOp b => simpa [applyOp, get_history_speeches_skill_used] using h

theorem defaultRoster_filter_ne_nil (pid : Int) :
    defaultRoster.filter (fun p => p != pid) ≠ [] := by
  by_cases hp : pid = 1
  · subst hp; decide
  · exact List.ne_nil_of_mem
      (List.mem_filter.mpr ⟨by decide, bne_iff_ne.mpr (fun h => hp h.symm)⟩)

theorem subAux_nil (l : List Char) : subAux [] l = true := by
  cases l <;> simp [subAux, List.isPrefixOf]

theorem subAux_append_right (n : List Char) :
    ∀ hay post, subAux n hay = true → subAux n (hay ++ post) = true := by
  intro hay
  induction hay with
  | nil =>
    intro post h
    have hn : n = [] := by simpa [subAux, List.isEmpty_iff] using h
    subst hn
    exact subAux_nil _
  | cons c t ih =>
    intro post h
    rw [subAux] at h
    rcases (Bool.or_eq_true _ _).mp h with hpre | hrec
    · have h1 : n <+: (c :: t) := List.isPrefixOf_iff_prefix.mp hpre
      have h2 : n.isPrefixOf (c :: (t ++ post)) = true := by
        simpa using List.isPrefixOf_iff_prefix.mpr (h1.trans (List.prefix_append _ _))
      show (n.isPrefixOf (c :: (t ++ post)) || subAux n (t ++ post)) = true
      rw [h2, Bool.true_or]
    · show (n.isPrefixOf (c :: (t ++ post)) || subAux n (t ++ post)) = true
      rw [ih post hrec, Bool.or_true]

theorem subAux_append_left (n pre : List Char) :
    ∀ hay, subAux n hay = true → subAux n (pre ++ hay) = true := by
  induction pre with
  | nil => intro hay h; simpa using h
  | cons c p ih => intro hay h; simp [subAux, ih hay h]

theorem containsSub_append_right (s t n : String)
    (h : containsSub s n = true) : containsSub (s ++ t) n = true := by
  unfold containsSub at h ⊢
  rw [String.data_append]
  exact subAux_append_right _ _ _ h

theorem containsSub_append_left (s t n : String)
    (h : containsSub t n = true) : containsSub (s ++ t) n = true := by
  unfold containsSub at h ⊢
  rw [String.data_append]
  exact subAux_append_left _ _ _ h

theorem pyLower_append (s t : String) :
    pyLower (s ++ t) = pyLower s ++ pyLower t := by
  unfold pyLower
  rw [String.data_append, List.map_append]
  rfl

/-- The speech prompt always contains the substring "speech" (it is literally
part of the template), whatever the interpolated context values are. -/
theorem speech_prompt_contains_speech (a : Agent) (context : Context) :
    containsSub (pyLower (construct_speech_prompt a context)) "speech" = true := by
  simp only [construct_speech_prompt, pyLower_append]
  apply containsSub_append_right
  apply containsSub_append_right
  apply containsSub_append_right
  apply containsSub_append_right
  apply containsSub_append_left
  decide

theorem get_current_state_fields (a : Agent) (b : Backend) :
    ((get_current_state a b).2.1).player_id = a.player_id ∧
    ((get_current_state a b).2.1).role = a.role ∧
    ((get_current_state a b).2.1).api_client = a.api_client := by
  unfold get_current_state
  cases b.get_game_state a.player_id <;> exact ⟨rfl, rfl, rfl⟩

theorem get_history_speeches_fields (a : Agent) (b : Backend) :
    ((get_history_speeches a b).2.1).player_id = a.player_id ∧
    ((get_history_speeches a b).2.1).role = a.role ∧
    ((get_history_speeches a b).2.1).api_client = a.api_client := by
  unfold get_history_speeches
  cases b.get_speech_history a.player_id <;> exact ⟨rfl, rfl, rfl⟩

theorem interact_fallback (a : Agent) (ch : Choice) (p : String) (context : Context)
    (hgen : GenUnavailable a) :
    (interact_with_ai a ch p context).1 = simulate_ai_response a ch p context := by
  rcases hgen with h | ⟨gen, hg, hfail⟩
  · simp [interact_with_ai, h]
  · obtain ⟨e, he⟩ := hfail (construct_full_prompt a p context)
    simp [interact_with_ai, hg, he]

theorem genUnavailable_of_api_eq {a a2 : Agent}
    (h : a2.api_client = a.api_client) (hg : GenUnavailable a) :
    GenUnavailable a2 := by
  unfold GenUnavailable at hg ⊢
  rw [h]
  exact hg

theorem simulate_speech_prompt (a : Agent) (ch : Choice) (p : String)
    (context : Context) (hp : containsSub (pyLower p) "speech" = true) :
    simulate_ai_response a ch p context =
      "I am player " ++ toString a.player_id ++ ", as a " ++ a.role.value ++
      ", I think we need to carefully analyze the current situation." := by
  simp [simulate_ai_response, hp]

/-- Under an unavailable generator, `speak` by an alive agent returns exactly
the canned role-flavoured speech sentence: the speech prompt always sniffs as
"speech", so the simulated fallback takes the speech branch. -/
theorem speak_simulated (a : Agent) (b : Backend) (ch : Choice)
    (speech_type : String) (halive : a.is_alive = true)
    (hgen : GenUnavailable a) :
    (speak a b ch speech_type).1 =
      "I am player " ++ toString a.player_id ++ ", as a " ++ a.role.value ++
      ", I think we need to carefully analyze the current situation." := by
  have e1 := get_current_state_fields a b
  have e2 := get_history_speeches_fields ((get_current_state a b).2.1) b
  have hapi : ((get_history_speeches ((get_current_state a b).2.1) b).2.1).api_client
      = a.api_client := e2.2.2.trans e1.2.2
  have hgen2 := genUnavailable_of_api_eq hapi hgen
  simp only [speak, halive, not_true, if_false]
  rw [interact_fallback _ ch _ _ hgen2]
  rw [simulate_speech_prompt]
  · rw [e2.1, e1.1, e2.2.1, e1.2.1]
  · exact speech_prompt_contains_speech _ _

/-- Under an unavailable generator, an alive agent's AI-derived vote decision
is the parse of the simulated reply to the vote prompt, and the decided target
is cached in `vote_target`. -/
theorem vote_simulated (a : Agent) (b : Backend) (ch : Choice)
    (halive : a.is_alive = true) (hgen : GenUnavailable a) :
    (vote a b ch none).1 =
      parse_vote_decision a ch
        (simulate_ai_response a ch
          (construct_vote_prompt a
            { player_id := some a.player_id
              role := some a.role.value
              game_phase := some a.knowledge_base.game_phase
              alive_players := some (a.knowledge_base.alive_players.getD [])
              history := some (lastN 5 a.knowledge_base.history_speeches) })
          { player_id := some a.player_id
            role := some a.role.value
            game_phase := some a.knowledge_base.game_phase
            alive_players := some (a.knowledge_base.alive_players.getD [])
            history := some (lastN 5 a.knowledge_base.history_speeches) }) ∧
    ((vote a b ch none).2.1).vote_target = some ((vote a b ch none).1) := by
  have hi := interact_fallback a ch
    (construct_vote_prompt a
      { player_id := some a.player_id
        role := some a.role.value
        game_phase := some a.knowledge_base.game_phase
        alive_players := some (a.knowledge_base.alive_players.getD [])
        history := some (lastN 5 a.knowledge_base.history_speeches) })
    { player_id := some a.player_id
      role := some a.role.value
      game_phase := some a.knowledge_base.game_phase
      alive_players := some (a.knowledge_base.alive_players.getD [])
      history := some (lastN 5 a.knowledge_base.history_speeches) } hgen
  constructor
  · simp only [vote, halive]
    rw [if_neg (by simp [halive])]
    rw [hi]
  · simp [vote, halive]

theorem use_werewolf_skill_noGen (a : Agent) (b : Backend) (ch : Choice)
    (sp : SkillParams) (hgen : GenUnavailable a) :
    (use_werewolf_skill a b ch sp).1 = (use_werewolf_skill (noGen a) b ch sp).1 ∧
    (use_werewolf_skill a b ch sp).2.1 = (use_werewolf_skill (noGen a) b ch sp).2.1 := by
  cases ht : sp.target_id with
  | some t => constructor <;> simp [use_werewolf_skill, ht, noGen]
  | none =>
    have hi : (interact_with_ai (noGen a) ch werewolf_prompt
        (get_skill_context (noGen a))).1 =
        (interact_with_ai a ch werewolf_prompt (get_skill_context a)).1 := by
      rw [interact_fallback (noGen a) ch _ _ (Or.inl rfl),
        interact_fallback a ch _ _ hgen]
      rfl
    constructor <;>
      · simp only [use_werewolf_skill, ht]
        rw [hi]
        simp only [noGen]
        split <;> rfl

theorem use_witch_skill_noGen (a : Agent) (b : Backend) (ch : Choice)
    (sp : SkillParams) (hgen : GenUnavailable a) :
    (use_witch_skill a b ch sp).1 = (use_witch_skill (noGen a) b ch sp).1 ∧
    (use_witch_skill a b ch sp).2.1 = (use_witch_skill (noGen a) b ch sp).2.1 := by
  cases ha : sp.action with
  | some ac => constructor <;> simp [use_witch_skill, ha, noGen]
  | none =>
    have hi : (interact_with_ai (noGen a) ch witch_prompt
        (get_skill_context (noGen a))).1 =
        (interact_with_ai a ch witch_prompt (get_skill_context a)).1 := by
      rw [interact_fallback (noGen a) ch _ _ (Or.inl rfl),
        interact_fallback a ch _ _ hgen]
      rfl
    constructor <;>
      · simp only [use_witch_skill, ha]
        rw [hi]
        simp only [noGen]
        split <;> (try split) <;> (try split) <;> rfl

theorem use_seer_skill_noGen (a : Agent) (b : Backend) (ch : Choice)
    (sp : SkillParams) (hgen : GenUnavailable a) :
    (use_seer_skill a b ch sp).1 = (use_seer_skill (noGen a) b ch sp).1 ∧
    (use_seer_skill a b ch sp).2.1 = (use_seer_skill (noGen a) b ch sp).2.1 := by
  cases ht : sp.target_id with
  | some t => constructor <;> simp [use_seer_skill, ht, noGen]
  | none =>
    have hi : (interact_with_ai (noGen a) ch seer_prompt
        (get_skill_context (noGen a))).1 =
        (interact_with_ai a ch seer_prompt (get_skill_context a)).1 := by
      rw [interact_fallback (noGen a) ch _ _ (Or.inl rfl),
        interact_fallback a ch _ _ hgen]
      rfl
    constructor <;>
      · simp only [use_seer_skill, ht]
        rw [hi]
        simp only [noGen]
        split <;> rfl

theorem use_hunter_skill_noGen (a : Agent) (b : Backend) (ch : Choice)
    (sp : SkillParams) (hgen : GenUnavailable a) :
    (use_hunter_skill a b ch sp).1 = (use_hunter_skill (noGen a) b ch sp).1 ∧
    (use_hunter_skill a b ch sp).2.1 = (use_hunter_skill (noGen a) b ch sp).2.1 := by
  cases ht : sp.target_id with
  | some t => constructor <;> simp [use_hunter_skill, ht, noGen]
  | none =>
    have hi : (interact_with_ai (noGen a) ch hunter_prompt
        (get_skill_context (noGen a))).1 =
        (interact_with_ai a ch hunter_prompt (get_skill_context a)).1 := by
      rw [interact_fallback (noGen a) ch _ _ (Or.inl rfl),
        interact_fallback a ch _ _ hgen]
      rfl
    constructor <;>
      · simp only [use_hunter_skill, ht]
        rw [hi]
        simp only [noGen]
        split <;> (try split) <;> rfl

/-- Under an unavailable generator, `use_skill` produces the same result and
the same backend calls as for the agent with no generator configured. -/
theorem use_skill_noGen (a : Agent) (b : Backend) (ch : Choice)
    (sp : Option SkillParams) (hgen : GenUnavailable a) :
    (use_skill a b ch sp).1 = (use_skill (noGen a) b ch sp).1 ∧
    (use_skill a b ch sp).2.2.1 = (use_skill (noGen a) b ch sp).2.2.1 := by
  cases ha : a.is_alive with
  | false => constructor <;> simp [use_skill, noGen, ha]
  | true =>
    cases hs : a.skill_used with
    | true => constructor <;> simp [use_skill, noGen, ha, hs]
    | false =>
      cases hr : a.role with
      | villager => constructor <;> simp [use_skill, noGen, ha, hs, hr]
      | werewolf =>
        have h := use_werewolf_skill_noGen a b ch (sp.getD {}) hgen
        constructor <;> simp [use_skill, noGen, ha, hs, hr, h.1, h.2]
      | witch =>
        have h := use_witch_skill_noGen a b ch (sp.getD {}) hgen
        constructor <;> simp [use_skill, noGen, ha, hs, hr, h.1, h.2]
      | seer =>
        have h := use_seer_skill_noGen a b ch (sp.getD {}) hgen
        constructor <;> simp [use_skill, noGen, ha, hs, hr, h.1, h.2]
      | hunter =>
        have h := use_hunter_skill_noGen a b ch (sp.getD {}) hgen
        constructor <;> simp [use_skill, noGen, ha, hs, hr, h.1, h.2]

/-! ## Claims -/

/-- C1: for every agent with `is_alive = false`, regardless of role,
parameters, backend and generator, `speak` returns the empty string, `vote`
returns `-1`, `use_skill` returns a `success = false` result, the agent state
is unchanged, and no backend call and no generator call is made (both traces
are empty). -/
theorem C1_dead_agent_noop (a : Agent) (b : Backend) (ch : Choice)
    (speech_type : String) (target_id : Option Int)
    (skill_params : Option SkillParams) (h : a.is_alive = false) :
    speak a b ch speech_type = ("", a, [], []) ∧
    vote a b ch target_id = (-1, a, [], []) ∧
    use_skill a b ch skill_params =
      ({ success := false, message := "Cannot use skill" }, a, [], []) := by
  refine ⟨?_, ?_, ?_⟩ <;> simp [speak, vote, use_skill, h]

theorem C1_dead_agent_noop_witness :
    deadAgent.is_alive = false ∧
    speak deadAgent okBackend chooseHead "normal" = ("", deadAgent, [], []) ∧
    vote deadAgent okBackend chooseHead none = (-1, deadAgent, [], []) ∧
    use_skill deadAgent okBackend chooseHead none =
      ({ success := false, message := "Cannot use skill" }, deadAgent, [], []) :=
  ⟨rfl, C1_dead_agent_noop deadAgent okBackend chooseHead "normal" none none rfl⟩

/-- C7: witch-decision parsing checks the case-insensitive substring "save"
first, then "poison", pairing the matched action with the first all-digit
token (0 when there is none), and yields ("abstain", 0) when neither keyword
occurs; including the spec's concrete examples. -/
theorem C7_witch_decision_parsing (response : String) :
    (containsSub (pyLower response) "save" = true →
      parse_witch_decision response = ("save", first_number response 0)) ∧
    (containsSub (pyLower response) "save" = false →
      containsSub (pyLower response) "poison" = true →
      parse_witch_decision response = ("poison", first_number response 0)) ∧
    (containsSub (pyLower response) "save" = false →
      containsSub (pyLower response) "poison" = false →
      parse_witch_decision response = ("abstain", 0)) ∧
    parse_witch_decision "save 4" = ("save", 4) ∧
    parse_witch_decision "poison 2 please" = ("poison", 2) ∧
    parse_witch_decision "I\x27ll abstain" = ("abstain", 0) ∧
    parse_witch_decision "save or poison?" = ("save", 0) := by
  refine ⟨?_, ?_, ?_, ?_, ?_, ?_, ?_⟩
  · intro h; simp [parse_witch_decision, h]
  · intro h1 h2; simp [parse_witch_decision, h1, h2]
  · intro h1 h2; simp [parse_witch_decision, h1, h2]
  · decide
  · decide
  · decide
  · decide

theorem C7_witch_decision_parsing_witness :
    containsSub (pyLower "save 4") "save" = true ∧
    parse_witch_decision "save 4" = ("save", first_number "save 4" 0) :=
  ⟨by decide, (C7_witch_decision_parsing "save 4").1 (by decide)⟩

/-- C8: for every alive hunter with an unused skill, a resolved target of 0
(supplied in the params or parsed from the generator reply) yields
`success = true` with the "chose not to shoot" message, no backend call at all
(in particular no `hunter_shoot`), and the latch set. -/
theorem C8_hunter_zero_target (a : Agent) (b : Backend) (ch : Choice)
    (sp : SkillParams) (halive : a.is_alive = true) (hused : a.skill_used = false)
    (hrole : a.role = Role.hunter)
    (htid : sp.target_id = some 0 ∨
      (sp.target_id = none ∧
        parse_number_from_response
          (interact_with_ai a ch hunter_prompt (get_skill_context a)).1 = 0)) :
    (use_skill a b ch (some sp)).1.success = true ∧
    (use_skill a b ch (some sp)).1.message = "Hunter chose not to shoot" ∧
    (use_skill a b ch (some sp)).2.2.1 = [] ∧
    (use_skill a b ch (some sp)).2.1.skill_used = true := by
  have hh : (use_hunter_skill a b ch sp).1 =
      { success := true, message := "Hunter chose not to shoot" } ∧
      (use_hunter_skill a b ch sp).2.1 = [] := by
    rcases htid with h | ⟨h1, h2⟩
    · simp [use_hunter_skill, h]
    · simp [use_hunter_skill, h1, h2]
  refine ⟨?_, ?_, ?_, ?_⟩ <;> simp [use_skill, halive, hused, hrole, hh.1, hh.2]

theorem C8_hunter_zero_target_witness :
    hunterAgent.is_alive = true ∧ hunterAgent.skill_used = false ∧
    hunterAgent.role = Role.hunter ∧
    (use_skill hunterAgent okBackend chooseHead
        (some { target_id := some 0 })).1.success = true ∧
    (use_skill hunterAgent okBackend chooseHead
        (some { target_id := some 0 })).1.message = "Hunter chose not to shoot" ∧
    (use_skill hunterAgent okBackend chooseHead
        (some { target_id := some 0 })).2.2.1 = [] ∧
    (use_skill hunterAgent okBackend chooseHead
        (some { target_id := some 0 })).2.1.skill_used = true := by
  have h := C8_hunter_zero_target hunterAgent okBackend chooseHead
    { target_id := some 0 } rfl rfl rfl (Or.inl rfl)
  exact ⟨rfl, rfl, rfl, h.1, h.2.1, h.2.2.1, h.2.2.2⟩

/-- C9: refreshing the game state twice against a backend that returns the
same state both times leaves the agent exactly as after the first refresh (in
particular the knowledge base is unchanged by the second refresh). -/
theorem C9_state_refresh_idempotent (a : Agent) (b : Backend) :
    (get_current_state (get_current_state a b).2.1 b).2.1 =
      (get_current_state a b).2.1 := by
  unfold get_current_state
  cases h : b.get_game_state a.player_id <;> simp [h]

/-- C10: `update_status` mutates at most `is_alive` and `skill_used` (each to
the looked-up value when its key is present), leaves `player_id`, `role`,
`vote_target`, the generator client and the whole knowledge base unchanged,
and ignores any entry whose key is neither "is_alive" nor "skill_used". -/
theorem C10_update_status_frame (a : Agent) (new_status : List (String × Bool))
    (k : String) (v : Bool) (hk1 : k ≠ "is_alive") (hk2 : k ≠ "skill_used") :
    (update_status a new_status).player_id = a.player_id ∧
    (update_status a new_status).role = a.role ∧
    (update_status a new_status).vote_target = a.vote_target ∧
    (update_status a new_status).api_client = a.api_client ∧
    (update_status a new_status).knowledge_base = a.knowledge_base ∧
    (update_status a new_status).is_alive =
      ((new_status.lookup "is_alive").getD a.is_alive) ∧
    (update_status a new_status).skill_used =
      ((new_status.lookup "skill_used").getD a.skill_used) ∧
    update_status a ((k, v) :: new_status) = update_status a new_status := by
  have b1 : ("is_alive" == k) = false := beq_eq_false_iff_ne.mpr (Ne.symm hk1)
  have b2 : ("skill_used" == k) = false := beq_eq_false_iff_ne.mpr (Ne.symm hk2)
  have e1 : (((k, v) :: new_status).lookup "is_alive") = new_status.lookup "is_alive" := by
    simp [List.lookup, b1]
  have e2 : (((k, v) :: new_status).lookup "skill_used") = new_status.lookup "skill_used" := by
    simp [List.lookup, b2]
  unfold update_status
  rw [e1, e2]
  cases h1 : new_status.lookup "is_alive" <;>
    cases h2 : new_status.lookup "skill_used" <;> simp

theorem C10_update_status_frame_witness :
    ("round" : String) ≠ "is_alive" ∧ ("round" : String) ≠ "skill_used" ∧
    (update_status hunterAgent [("round", true), ("is_alive", false)]).knowledge_base =
      hunterAgent.knowledge_base ∧
    (update_status hunterAgent [("round", true), ("is_alive", false)]).is_alive =
      (([("round", true), ("is_alive", false)].lookup "is_alive").getD
        hunterAgent.is_alive) ∧
    update_status hunterAgent (("round", true) :: [("is_alive", false)]) =
      update_status hunterAgent [("is_alive", false)] := by
  have h := C10_update_status_frame hunterAgent [("round", true), ("is_alive", false)]
    "round" true (by decide) (by decide)
  have h' := C10_update_status_frame hunterAgent [("is_alive", false)]
    "round" true (by decide) (by decide)
  exact ⟨by decide, by decide, h.2.2.2.2.1, h.2.2.2.2.2.1, h'.2.2.2.2.2.2.2⟩

/-- C2: with `skill_used = true`, `use_skill` fails regardless of role, params,
backend and generator; and once a `use_skill` call succeeds the latch is set
and every later `use_skill` call, after any sequence of normal-play operations
(no external status overwrite), returns `success = false`. -/
theorem C2_skill_latch (a : Agent) (b : Backend) (ch : Choice)
    (skill_params : Option SkillParams) (ops : List NormalOp) :
    (a.skill_used = true → (use_skill a b ch skill_params).1.success = false) ∧
    ((use_skill a b ch skill_params).1.success = true →
      ((use_skill a b ch skill_params).2.1).skill_used = true ∧
      ∀ (b2 : Backend) (ch2 : Choice) (sp2 : Option SkillParams),
        (use_skill (runOps ((use_skill a b ch skill_params).2.1) ops) b2 ch2 sp2).1.success
          = false) := by
  refine ⟨fun h => use_skill_latched_fails a b ch skill_params h, fun hs => ?_⟩
  have hl := use_skill_success_latch a b ch skill_params hs
  exact ⟨hl, fun b2 ch2 sp2 =>
    use_skill_latched_fails _ b2 ch2 sp2 (runOps_latch_mono ops _ hl)⟩

theorem C2_skill_latch_witness :
    latchedAgent.skill_used = true ∧
    (use_skill latchedAgent okBackend chooseHead none).1.success = false ∧
    (use_skill seerAgent okBackend chooseHead (some { target_id := some 3 })).1.success
      = true ∧
    ((use_skill seerAgent okBackend chooseHead (some { target_id := some 3 })).2.1).skill_used
      = true ∧
    (use_skill
        (runOps ((use_skill seerAgent okBackend chooseHead
          (some { target_id := some 3 })).2.1) [])
        okBackend chooseHead (some { target_id := some 4 })).1.success = false := by
  have h1 := (C2_skill_latch latchedAgent okBackend chooseHead none []).1 rfl
  have h2 := (C2_skill_latch seerAgent okBackend chooseHead
    (some { target_id := some 3 }) []).2 rfl
  exact ⟨rfl, h1, rfl, h2.1, h2.2 okBackend chooseHead (some { target_id := some 4 })⟩

/-- C3 (amended): `act` never lets an exception escape; when the
`update_agent_action` call raises after the dispatched action completed, the
returned result carries the exception message ("Action failed: ..."), but the
success flag set by the completed inner action is kept (it is NOT reset to
false); when the update call succeeds the dispatched result is returned
unchanged. -/
theorem C3_act_error_handling (a : Agent) (b : Backend) (ch : Choice)
    (action_type : String) (speech_type : Option String) (target_id : Option Int)
    (skill_params : Option SkillParams) :
    (∀ u, b.update_agent_action
        ((act_dispatch a b ch action_type speech_type target_id skill_params).2.1).player_id
        (act_dispatch a b ch action_type speech_type target_id skill_params).1
          = Except.ok u →
      (act a b ch action_type speech_type target_id skill_params).1 =
        (act_dispatch a b ch action_type speech_type target_id skill_params).1) ∧
    (∀ e, b.update_agent_action
        ((act_dispatch a b ch action_type speech_type target_id skill_params).2.1).player_id
        (act_dispatch a b ch action_type speech_type target_id skill_params).1
          = Except.error e →
      (act a b ch action_type speech_type target_id skill_params).1 =
        { (act_dispatch a b ch action_type speech_type target_id skill_params).1 with
            message := some ("Action failed: " ++ e) } ∧
      ((act a b ch action_type speech_type target_id skill_params).1).success =
        ((act_dispatch a b ch action_type speech_type target_id skill_params).1).success)
    := by
  constructor
  · intro u hu; simp [act, hu]
  · intro e he; simp [act, he]

/-- C3 counterexample to the claim as stated: an alive agent votes for an
explicit target, the inner action completes and sets `success = true`, then the
backend's `update_agent_action` raises; `act` returns a result whose message
carries the exception but whose success flag is still `true`, not the claimed
failure result with `success = false`. -/
theorem C3_counterexample :
    ((act hunterAgent boomBackend chooseHead "vote" none (some 3) none).1).success
      = true ∧
    ((act hunterAgent boomBackend chooseHead "vote" none (some 3) none).1).message
      = some "Action failed: boom" := ⟨rfl, rfl⟩

theorem C3_act_error_handling_witness :
    boomBackend.update_agent_action
      ((act_dispatch hunterAgent boomBackend chooseHead "vote" none (some 3) none).2.1).player_id
      (act_dispatch hunterAgent boomBackend chooseHead "vote" none (some 3) none).1
        = Except.error "boom" ∧
    (act hunterAgent boomBackend chooseHead "vote" none (some 3) none).1 =
      { (act_dispatch hunterAgent boomBackend chooseHead "vote" none (some 3) none).1 with
          message := some ("Action failed: " ++ "boom") } :=
  ⟨rfl, ((C3_act_error_handling hunterAgent boomBackend chooseHead "vote" none
      (some 3) none).2 "boom" rfl).1⟩

/-- C4 (amended): when the reply has no all-digit token, the vote parse picks
(via the choice function modelling `random.choice`) from the cached alive
roster excluding self; the fixed default roster 1-9 minus self is used only
when NO roster was ever cached (the `alive_players` key is absent), in which
case the candidate set is never empty; and `-1` is returned exactly when a
cached roster is present whose members other than self are none. -/
theorem C4_vote_fallback (a : Agent) (ch : Choice) (resp : String)
    (hch : ∀ l : List Int, l ≠ [] → ch l ∈ l)
    (hnum : digitTokens resp = []) :
    (a.knowledge_base.alive_players = none →
      parse_vote_decision a ch resp ∈
        defaultRoster.filter (fun p => p != a.player_id)) ∧
    (∀ l : List Int, a.knowledge_base.alive_players = some l →
      (l.filter (fun p => p != a.player_id) = [] →
        parse_vote_decision a ch resp = -1) ∧
      (l.filter (fun p => p != a.player_id) ≠ [] →
        parse_vote_decision a ch resp ∈ l.filter (fun p => p != a.player_id))) := by
  constructor
  · intro hnone
    have hne := defaultRoster_filter_ne_nil a.player_id
    have hemp : (defaultRoster.filter (fun p => p != a.player_id)).isEmpty = false := by
      simpa [List.isEmpty_iff] using hne
    simp only [parse_vote_decision, hnum, hnone, Option.getD_none, hemp,
      Bool.false_eq_true, if_false]
    exact hch _ hne
  · intro l hl
    constructor
    · intro hfil
      simp [parse_vote_decision, hnum, hl, hfil]
    · intro hfil
      have hemp : (l.filter (fun p => p != a.player_id)).isEmpty = false := by
        simpa [List.isEmpty_iff] using hfil
      simp only [parse_vote_decision, hnum, hl, Option.getD_some, hemp,
        Bool.false_eq_true, if_false]
      exact hch _ hfil

/-- C4 counterexample to the claim as stated: with a cached-but-empty alive
roster and a reply carrying no digit token, the parse returns `-1` instead of
falling back to the default roster 1-9 minus self (so `-1` is returned even
though candidates would remain under the claimed fallback). -/
theorem C4_counterexample :
    digitTokens "no numbers here" = [] ∧
    emptyRosterAgent.knowledge_base.alive_players = some [] ∧
    parse_vote_decision emptyRosterAgent chooseHead "no numbers here" = -1 ∧
    parse_vote_decision emptyRosterAgent chooseHead "no numbers here" ∉
      defaultRoster.filter (fun p => p != emptyRosterAgent.player_id) := by
  exact ⟨by decide, rfl, by decide, by decide⟩

theorem C4_vote_fallback_witness :
    digitTokens "hello" = [] ∧
    villagerAgent.knowledge_base.alive_players = none ∧
    parse_vote_decision villagerAgent chooseHead "hello" ∈
      defaultRoster.filter (fun p => p != villagerAgent.player_id) :=
  ⟨by decide, rfl,
    (C4_vote_fallback villagerAgent chooseHead "hello" chooseHead_mem (by decide)).1 rfl⟩

/-- C5: a successful state fetch writes exactly the four state fields as a
group — each to the fetched value, or to its defaulting value when the
optional key is absent — and leaves the other knowledge-base fields
(`history_speeches`, `vote_history`) untouched; a failed fetch leaves the
whole agent, hence every previously cached value, unchanged. -/
theorem C5_state_fetch_frame (a : Agent) (b : Backend) :
    (∀ s : GameState, b.get_game_state a.player_id = Except.ok s →
      ((get_current_state a b).2.1).knowledge_base.game_phase = s.phase ∧
      ((get_current_state a b).2.1).knowledge_base.current_round = s.round.getD 0 ∧
      ((get_current_state a b).2.1).knowledge_base.alive_players
        = some (s.alive_players.getD []) ∧
      ((get_current_state a b).2.1).knowledge_base.death_info = s.death_info.getD [] ∧
      ((get_current_state a b).2.1).knowledge_base.history_speeches
        = a.knowledge_base.history_speeches ∧
      ((get_current_state a b).2.1).knowledge_base.vote_history
        = a.knowledge_base.vote_history) ∧
    (∀ e, b.get_game_state a.player_id = Except.error e →
      (get_current_state a b).2.1 = a) := by
  constructor
  · intro s hs
    simp [get_current_state, hs]
  · intro e he
    simp [get_current_state, he]

theorem C5_state_fetch_frame_witness :
    partialBackend.get_game_state witchAgent.player_id = Except.ok partialState ∧
    ((get_current_state witchAgent partialBackend).2.1).knowledge_base.game_phase
      = partialState.phase ∧
    ((get_current_state witchAgent partialBackend).2.1).knowledge_base.current_round
      = partialState.round.getD 0 ∧
    ((get_current_state witchAgent partialBackend).2.1).knowledge_base.history_speeches
      = witchAgent.knowledge_base.history_speeches :=
  ⟨rfl, ((C5_state_fetch_frame witchAgent partialBackend).1 partialState rfl).1,
    ((C5_state_fetch_frame witchAgent partialBackend).1 partialState rfl).2.1,
    ((C5_state_fetch_frame witchAgent partialBackend).1 partialState rfl).2.2.2.2.1⟩

/-- C6 (amended): for every agent whose Generator raises on every call (or is
not configured), speak, vote and use_skill never raise and still return
well-formed results built from the simulated fallback, which replaces the
generator failure and is selected by case-insensitive keyword sniffing of the
outbound prompt: prompts containing "speech" or "speak" get the canned
role-flavoured sentence, prompts containing "vote" get a chosen member of the
context's alive roster excluding self rendered as text — or the constant "1"
when that set is empty, which need not be an alive opponent — and all other
prompts get the generic canned acting statement. At the entry points: an alive
agent's speak returns exactly the canned sentence (its prompt always sniffs as
"speech"), its AI-derived vote decision is the parse of the simulated reply to
the vote prompt (and is cached in vote_target), and use_skill produces the
same result and the same backend calls as with no generator configured. -/
theorem C6_generator_fallback (a : Agent) (b : Backend) (ch : Choice)
    (prompt : String) (context : Context) (speech_type : String)
    (skill_params : Option SkillParams) (hgen : GenUnavailable a) :
    (interact_with_ai a ch prompt context).1 =
      simulate_ai_response a ch prompt context ∧
    (containsSub (pyLower prompt) "speech" = true ∨
        containsSub (pyLower prompt) "speak" = true →
      simulate_ai_response a ch prompt context =
        "I am player " ++ toString a.player_id ++ ", as a " ++ a.role.value ++
        ", I think we need to carefully analyze the current situation.") ∧
    (containsSub (pyLower prompt) "speech" = false →
      containsSub (pyLower prompt) "speak" = false →
      containsSub (pyLower prompt) "vote" = true →
      simulate_ai_response a ch prompt context =
        toString
          (if ((context.alive_players.getD defaultRoster).filter
                (fun p => p != a.player_id)).isEmpty then 1
           else ch ((context.alive_players.getD defaultRoster).filter
                (fun p => p != a.player_id)))) ∧
    (containsSub (pyLower prompt) "speech" = false →
      containsSub (pyLower prompt) "speak" = false →
      containsSub (pyLower prompt) "vote" = false →
      simulate_ai_response a ch prompt context =
        "Based on the current situation, I choose to act.") ∧
    (a.is_alive = true →
      (speak a b ch speech_type).1 =
        "I am player " ++ toString a.player_id ++ ", as a " ++ a.role.value ++
        ", I think we need to carefully analyze the current situation.") ∧
    (a.is_alive = true →
      (vote a b ch none).1 =
        parse_vote_decision a ch
          (simulate_ai_response a ch
            (construct_vote_prompt a
              { player_id := some a.player_id
                role := some a.role.value
                game_phase := some a.knowledge_base.game_phase
                alive_players := some (a.knowledge_base.alive_players.getD [])
                history := some (lastN 5 a.knowledge_base.history_speeches) })
            { player_id := some a.player_id
              role := some a.role.value
              game_phase := some a.knowledge_base.game_phase
              alive_players := some (a.knowledge_base.alive_players.getD [])
              history := some (lastN 5 a.knowledge_base.history_speeches) }) ∧
      ((vote a b ch none).2.1).vote_target = some ((vote a b ch none).1)) ∧
    ((use_skill a b ch skill_params).1 = (use_skill (noGen a) b ch skill_params).1 ∧
      (use_skill a b ch skill_params).2.2.1 =
        (use_skill (noGen a) b ch skill_params).2.2.1) := by
  refine ⟨interact_fallback a ch prompt context hgen, ?_, ?_, ?_,
    fun halive => speak_simulated a b ch speech_type halive hgen,
    fun halive => vote_simulated a b ch halive hgen,
    use_skill_noGen a b ch skill_params hgen⟩
  · rintro (h | h) <;> simp [simulate_ai_response, h]
  · intro h1 h2 h3
    simp [simulate_ai_response, h1, h2, h3]
  · intro h1 h2 h3
    simp [simulate_ai_response, h1, h2, h3]

/-- C6 counterexample to the claim as stated: the generator raises on every
call and the vote prompt reaches the simulated fallback, but the roster
excluding self is empty, so the reply is the constant "1" — the agent's own
id, not "a random alive opponent id". -/
theorem C6_counterexample :
    (interact_with_ai lonelyAgent chooseHead "please vote now" lonelyContext).1 = "1" ∧
    ((lonelyContext.alive_players.getD defaultRoster).filter
      (fun p => p != lonelyAgent.player_id)) = [] ∧
    lonelyAgent.player_id = 1 := ⟨rfl, rfl, rfl⟩

theorem C6_generator_fallback_witness :
    lonelyAgent.api_client = some failGen ∧
    lonelyAgent.is_alive = true ∧
    containsSub (pyLower "please vote now") "vote" = true ∧
    (interact_with_ai lonelyAgent chooseHead "please vote now" lonelyContext).1 =
      simulate_ai_response lonelyAgent chooseHead "please vote now" lonelyContext ∧
    (speak lonelyAgent okBackend chooseHead "normal").1 =
      "I am player " ++ toString lonelyAgent.player_id ++ ", as a " ++
        lonelyAgent.role.value ++
        ", I think we need to carefully analyze the current situation." ∧
    (use_skill lonelyAgent okBackend chooseHead none).1 =
      (use_skill (noGen lonelyAgent) okBackend chooseHead none).1 := by
  have h := C6_generator_fallback lonelyAgent okBackend chooseHead "please vote now"
    lonelyContext "normal" none (Or.inr ⟨failGen, rfl, fun p => ⟨"down", rfl⟩⟩)
  exact ⟨rfl, rfl, by decide, h.1, h.2.2.2.2.1 rfl, h.2.2.2.2.2.2.1⟩

end WerewolfSDK
